import Mathlib

/-!
# BagAlert Protection Monitoring Engine — verification development

Shallow embedding of the BagAlert repository's protection-monitoring core.
The repository's visible sources are the React viewer (`frontend/src/App.tsx`),
the README, install scripts and ESP32 firmware; the Python backend engine
(`camera/camera_server.py` / `camera_service.py`, referenced by the README and
install scripts) is not present among the sources, so the engine definitions
below are modelled from the specification's words, as marked on each
definition.  The viewer-side definitions are translated directly from
`frontend/src/App.tsx`.

Coordinates, scores and timestamps are modelled with exact rationals.
-/

namespace BagAlert

/-- Modelled from the spec: a bounding box of four numeric coordinates with
intended invariant `x_min ≤ x_max`, `y_min ≤ y_max`; malformed boxes are
still accepted (clamped by the geometry, never rejected). -/
structure BoundingBox where
  x_min : ℚ
  y_min : ℚ
  x_max : ℚ
  y_max : ℚ
deriving DecidableEq, Repr

/-- A bounding box satisfying the data-model invariant. -/
def validBox (b : BoundingBox) : Prop :=
  b.x_min ≤ b.x_max ∧ b.y_min ≤ b.y_max

instance (b : BoundingBox) : Decidable (validBox b) := by
  unfold validBox; infer_instance

/-- Modelled from the spec: box area, clamping malformed extents to zero. -/
def boxArea (b : BoundingBox) : ℚ :=
  max 0 (b.x_max - b.x_min) * max 0 (b.y_max - b.y_min)

/-- Width of the intersection of two boxes, clamped at zero. -/
def interWidth (a b : BoundingBox) : ℚ :=
  max 0 (min a.x_max b.x_max - max a.x_min b.x_min)

/-- Height of the intersection of two boxes, clamped at zero. -/
def interHeight (a b : BoundingBox) : ℚ :=
  max 0 (min a.y_max b.y_max - max a.y_min b.y_min)

/-- Area of the intersection of two boxes. -/
def interArea (a b : BoundingBox) : ℚ :=
  interWidth a b * interHeight a b

/-- Modelled from the spec: `iou(a, b)` is intersection area over union area;
0 when the union is degenerate; total on all inputs (malformed boxes are
clamped by `boxArea`/`interArea`, not rejected). -/
def iou (a b : BoundingBox) : ℚ :=
  if boxArea a + boxArea b - interArea a b ≤ 0 then 0
  else interArea a b / (boxArea a + boxArea b - interArea a b)

/-- Two boxes are disjoint when they do not overlap on some axis. -/
def disjointBoxes (a b : BoundingBox) : Prop :=
  a.x_max ≤ b.x_min ∨ b.x_max ≤ a.x_min ∨ a.y_max ≤ b.y_min ∨ b.y_max ≤ a.y_min

/-- Modelled from the spec: a detection produced by the external detector. -/
structure Detection where
  label : String
  bbox : BoundingBox
  confidence : ℚ
deriving DecidableEq, Repr

/-- Modelled from the spec: a protected object captured at arm time
(label plus baseline bounding box). -/
structure ProtectedObject where
  label : String
  baseline_bbox : BoundingBox
deriving DecidableEq, Repr

/-- Modelled from the spec: per-frame derived status of a protected object. -/
inductive ObjectStatus where
  | Intact : ObjectStatus
  | Moved (score : ℚ) : ObjectStatus
  | Missing : ObjectStatus
deriving DecidableEq, Repr

/-- Modelled from the spec: a disturbance record produced when an object's
status leaves `Intact`. -/
structure Disturbance where
  item : String
  movement_score : ℚ
  missing : Bool
  original_bbox : BoundingBox
  current_bbox : Option BoundingBox
deriving DecidableEq, Repr

/-- Modelled from the spec: an alert grouping all disturbances found in a
single frame evaluation. -/
structure AlertEvent where
  timestamp : ℚ
  disturbances : List Disturbance
deriving DecidableEq, Repr

/-- Modelled from the spec: the last classification reported for a label,
used by the alert manager's dedup policy. -/
inductive ReportedStatus where
  | moved (score : ℚ) : ReportedStatus
  | missing : ReportedStatus
deriving DecidableEq, Repr

/-- Modelled from the spec: the active protection session, owned by the
protection state machine.  The per-label last-reported-status map of the
alert manager is folded into the session, as the spec suggests. -/
structure ProtectionSession where
  armed : Bool
  protected_objects : List ProtectedObject
  alert_history : List AlertEvent
  missing_streak : String → Nat
  last_reported : String → Option ReportedStatus

/-- Modelled from the spec: find the best-matching same-label detection for a
baseline box, maximizing IoU, ties broken by highest confidence, then
first-seen order. -/
def bestMatch (baseline : BoundingBox) (label : String) (dets : List Detection) :
    Option Detection :=
  dets.foldl
    (fun best d =>
      if d.label = label then
        match best with
        | none => some d
        | some b =>
            if iou baseline d.bbox > iou baseline b.bbox ∨
               (iou baseline d.bbox = iou baseline b.bbox ∧ d.confidence > b.confidence)
            then some d else some b
      else best)
    none

/-- Modelled from the spec: classify one protected object against a frame's
detections.  If a match exists with IoU at least `missing_tolerance` the
object is present: the missing streak resets to 0 and the object is `Moved`
when `1 - iou` exceeds `movement_threshold`, else `Intact`.  Otherwise the
missing streak increments and the object is `Missing` once the streak
reaches `missing_debounce`, else `Intact`.  Returns the status, the updated
streak, and the matched detection when present. -/
def classifyObject (movement_threshold missing_tolerance : ℚ) (missing_debounce : Nat)
    (streak : Nat) (dets : List Detection) (obj : ProtectedObject) :
    ObjectStatus × Nat × Option Detection :=
  match bestMatch obj.baseline_bbox obj.label dets with
  | some d =>
      if missing_tolerance ≤ iou obj.baseline_bbox d.bbox then
        let score := 1 - iou obj.baseline_bbox d.bbox
        (if movement_threshold < score then .Moved score else .Intact, 0, some d)
      else
        (if missing_debounce ≤ streak + 1 then .Missing else .Intact, streak + 1, none)
  | none =>
      (if missing_debounce ≤ streak + 1 then .Missing else .Intact, streak + 1, none)

/-- Modelled from the spec: the disturbance collected for one object this
frame — one for every object classified `Moved`, and one for an object
newly reaching `Missing` (streak exactly at the debounce). -/
def disturbanceOf (missing_debounce : Nat) (obj : ProtectedObject)
    (status : ObjectStatus) (streak : Nat) (matched : Option Detection) :
    Option Disturbance :=
  match status with
  | .Intact => none
  | .Moved score =>
      some ⟨obj.label, score, false, obj.baseline_bbox, matched.map Detection.bbox⟩
  | .Missing =>
      if streak = missing_debounce then
        some ⟨obj.label, 1, true, obj.baseline_bbox, none⟩
      else none

/-- Modelled from the spec: per-frame disturbance evaluation.  Runs only when
the session is armed; returns the collected disturbances and the updated
per-label missing-streak map. -/
def evaluate (movement_threshold missing_tolerance : ℚ) (missing_debounce : Nat)
    (dets : List Detection) (s : ProtectionSession) :
    List Disturbance × (String → Nat) :=
  if s.armed then
    s.protected_objects.foldl
      (fun acc obj =>
        let r := classifyObject movement_threshold missing_tolerance missing_debounce
          (acc.2 obj.label) dets obj
        let ds :=
          match disturbanceOf missing_debounce obj r.1 r.2.1 r.2.2 with
          | some d => acc.1 ++ [d]
          | none => acc.1
        (ds, fun l => if l = obj.label then r.2.1 else acc.2 l))
      ([], s.missing_streak)
  else ([], s.missing_streak)

/-- Modelled from the spec: the alert manager's dedup test — a disturbance is
surfaced only when its classification changed or its movement score
increased by more than `eps` since the last report for that label. -/
def isNewDisturbance (eps : ℚ) (last : String → Option ReportedStatus)
    (d : Disturbance) : Bool :=
  match last d.item with
  | none => true
  | some .missing => d.missing = false
  | some (.moved s) => if d.missing then true else decide (s + eps < d.movement_score)

/-- Modelled from the spec: record the surfaced disturbances in the per-label
last-reported-status map. -/
def updateReported (last : String → Option ReportedStatus) (ds : List Disturbance) :
    String → Option ReportedStatus :=
  ds.foldl
    (fun m d => fun l =>
      if l = d.item then
        some (if d.missing then .missing else .moved d.movement_score)
      else m l)
    last

/-- Modelled from the spec: append an alert to the bounded history, evicting
the oldest entries first when over capacity (FIFO, default capacity 10). -/
def appendAlert (cap : Nat) (hist : List AlertEvent) (e : AlertEvent) :
    List AlertEvent :=
  if cap < (hist ++ [e]).length then
    (hist ++ [e]).drop ((hist ++ [e]).length - cap)
  else hist ++ [e]

/-- Modelled from the spec: one full frame step — evaluation followed by the
alert manager's `process`.  Emits an alert exactly when some collected
disturbance is new per the dedup policy; on emission the alert is appended
to the bounded history and the last-reported map is updated.  Returns the
collected disturbances, the emitted alert (if any) and the updated session. -/
def stepFrame (movement_threshold missing_tolerance : ℚ) (missing_debounce : Nat)
    (eps : ℚ) (cap : Nat) (dets : List Detection) (now : ℚ)
    (s : ProtectionSession) :
    List Disturbance × Option AlertEvent × ProtectionSession :=
  if s.armed then
    let r := evaluate movement_threshold missing_tolerance missing_debounce dets s
    let fresh := r.1.filter (isNewDisturbance eps s.last_reported)
    if fresh.isEmpty then
      (r.1, none, { s with missing_streak := r.2 })
    else
      let ev : AlertEvent := ⟨now, fresh⟩
      (r.1, some ev,
        { s with
            missing_streak := r.2
            alert_history := appendAlert cap s.alert_history ev
            last_reported := updateReported s.last_reported fresh })
  else ([], none, s)

/-- Modelled from the spec: arming failure reasons. -/
inductive ArmError where
  | NoObjectsDetected : ArmError
deriving DecidableEq, Repr

/-- Modelled from the spec: the result returned by a successful arm. -/
structure ArmResult where
  success : Bool
  object_count : Nat
deriving DecidableEq, Repr

/-- Modelled from the spec: the protection state machine's states — `Idle`
initially, `Armed` holding the one active session. -/
inductive MachineState where
  | Idle : MachineState
  | Armed (session : ProtectionSession) : MachineState

/-- Modelled from the spec: the fresh session built at arm time — one
protected object per detection, empty alert history, zero streaks. -/
def newSession (dets : List Detection) : ProtectionSession where
  armed := true
  protected_objects := dets.map (fun d => ⟨d.label, d.bbox⟩)
  alert_history := []
  missing_streak := fun _ => 0
  last_reported := fun _ => none

/-- Modelled from the spec: `arm` builds a new session from the current
detections; with no detections it signals `NoObjectsDetected` and leaves
the state unchanged.  Arming while armed replaces the prior session. -/
def arm (dets : List Detection) (st : MachineState) :
    Except ArmError ArmResult × MachineState :=
  if dets.isEmpty then (.error .NoObjectsDetected, st)
  else (.ok ⟨true, dets.length⟩, .Armed (newSession dets))

/-- Modelled from the spec: `disarm` transitions to `Idle`, clearing the
session; a no-op when already `Idle`. -/
def disarm : MachineState → MachineState := fun _ => .Idle

/-- Modelled from the spec: frame evaluation at the state-machine level —
`Idle` produces nothing; `Armed` runs the per-frame step on the session. -/
def machineEvaluate (movement_threshold missing_tolerance : ℚ)
    (missing_debounce : Nat) (eps : ℚ) (cap : Nat) (dets : List Detection)
    (now : ℚ) : MachineState → List Disturbance × Option AlertEvent × MachineState
  | .Idle => ([], none, .Idle)
  | .Armed s =>
      let r := stepFrame movement_threshold missing_tolerance missing_debounce
        eps cap dets now s
      (r.1, r.2.1, .Armed r.2.2)

/-- Modelled from the spec: the two message shapes carried by the stream
surface — a frame message is the raw encoded image payload (base64 text,
no envelope), an alert message is the structured alert event serialized
with a `type` field equal to `alert`. -/
inductive StreamMessage where
  | frame (payload : String) : StreamMessage
  | alert (data : AlertEvent) : StreamMessage
deriving DecidableEq, Repr

/-- The discriminator field a stream message carries: an alert message is
tagged `alert`; a frame message is a bare payload carrying no field. -/
def messageDiscriminator : StreamMessage → Option String
  | .frame _ => none
  | .alert _ => some "alert"

/-- Viewer state of `CameraFeed` in `frontend/src/App.tsx`: the displayed
image URL, the alert list and the protection status line.  The alert
payload type is a parameter (the source stores parsed JSON `data`). -/
structure ClientState (α : Type) where
  imageUrl : String
  alerts : List α
  protectionStatus : String
deriving DecidableEq

/-- Outcome of the fallible prefix of the `try` block in `ws.onmessage` of
`frontend/src/App.tsx` (lines 83–96): `notJson` — `JSON.parse` throws on
the payload; `jsonNull` — the payload parses to JSON `null`, so the
subsequent `jsonMsg.type` property access throws a TypeError inside the
`try`; `jsonValue t d` — the payload parses to a non-null value whose
`type` field is `t` (`none` when absent or not a string; property access
on any non-null value does not throw) and whose `data` field is `d`. -/
inductive ParsedPayload (α : Type) where
  | notJson : ParsedPayload α
  | jsonNull : ParsedPayload α
  | jsonValue (typeField : Option String) (data : α) : ParsedPayload α
deriving DecidableEq, Repr

/-- The `ws.onmessage` handler of `frontend/src/App.tsx` (lines 83–96).
The `catch` spans the whole `try` body, so it is reached both when
`JSON.parse` throws and when the payload parses to `null` and the
`jsonMsg.type` access throws a TypeError; in both cases the payload is
rendered as a base64 JPEG frame.  A parsed non-null payload tagged
`alert` is prepended to the alert list (keeping only the first 10); any
other parsed non-null payload is silently dropped. -/
def onmessage {α : Type} (parsed : ParsedPayload α) (raw : String)
    (s : ClientState α) : ClientState α :=
  match parsed with
  | .jsonValue t d =>
      if t = some "alert" then
        { s with alerts := (d :: s.alerts).take 10 }
      else s
  | .jsonNull =>
      { s with imageUrl := "data:image/jpeg;base64," ++ raw }
  | .notJson =>
      { s with imageUrl := "data:image/jpeg;base64," ++ raw }

/-- Response body of `/activate_protection` as read by
`frontend/src/App.tsx` (lines 151–163). -/
structure ActivateResponse where
  success : Bool
  object_count : Nat
  message : String
deriving DecidableEq, Repr

/-- The `/activate_protection` response handler of `frontend/src/App.tsx`
(lines 151–163): on success set the status line and reset the alert list
to empty; on failure only set the failure status line. -/
def handleActivateResponse {α : Type} (r : ActivateResponse)
    (s : ClientState α) : ClientState α :=
  if r.success then
    { s with
        protectionStatus :=
          "Protection active: monitoring " ++ toString r.object_count ++ " objects"
        alerts := [] }
  else
    { s with protectionStatus := "Failed to activate protection: " ++ r.message }

/-! ### Geometry lemmas -/

theorem interWidth_nonneg (a b : BoundingBox) : 0 ≤ interWidth a b :=
  le_max_left 0 _

theorem interHeight_nonneg (a b : BoundingBox) : 0 ≤ interHeight a b :=
  le_max_left 0 _

theorem interArea_nonneg (a b : BoundingBox) : 0 ≤ interArea a b :=
  mul_nonneg (interWidth_nonneg a b) (interHeight_nonneg a b)

theorem boxArea_nonneg (b : BoundingBox) : 0 ≤ boxArea b :=
  mul_nonneg (le_max_left 0 _) (le_max_left 0 _)

theorem interWidth_le_left (a b : BoundingBox) :
    interWidth a b ≤ max 0 (a.x_max - a.x_min) := by
  unfold interWidth
  apply max_le (le_max_left _ _)
  refine le_trans ?_ (le_max_right _ _)
  have h1 : min a.x_max b.x_max ≤ a.x_max := min_le_left _ _
  have h2 : a.x_min ≤ max a.x_min b.x_min := le_max_left _ _
  linarith

theorem interHeight_le_left (a b : BoundingBox) :
    interHeight a b ≤ max 0 (a.y_max - a.y_min) := by
  unfold interHeight
  apply max_le (le_max_left _ _)
  refine le_trans ?_ (le_max_right _ _)
  have h1 : min a.y_max b.y_max ≤ a.y_max := min_le_left _ _
  have h2 : a.y_min ≤ max a.y_min b.y_min := le_max_left _ _
  linarith

theorem interArea_le_left (a b : BoundingBox) : interArea a b ≤ boxArea a :=
  mul_le_mul (interWidth_le_left a b) (interHeight_le_left a b)
    (interHeight_nonneg a b) (le_max_left 0 _)

theorem interArea_comm (a b : BoundingBox) : interArea a b = interArea b a := by
  unfold interArea interWidth interHeight
  rw [min_comm a.x_max b.x_max, max_comm a.x_min b.x_min,
    min_comm a.y_max b.y_max, max_comm a.y_min b.y_min]

theorem interArea_le_right (a b : BoundingBox) : interArea a b ≤ boxArea b := by
  rw [interArea_comm]; exact interArea_le_left b a

theorem iou_nonneg (a b : BoundingBox) : 0 ≤ iou a b := by
  unfold iou
  split
  · exact le_refl 0
  · next h =>
      exact div_nonneg (interArea_nonneg a b) (le_of_lt (lt_of_not_le h))

theorem iou_le_one (a b : BoundingBox) : iou a b ≤ 1 := by
  unfold iou
  split
  · exact zero_le_one
  · next h =>
      have hu : 0 < boxArea a + boxArea b - interArea a b := lt_of_not_le h
      rw [div_le_one hu]
      have h1 := interArea_le_left a b
      have h2 := interArea_le_right a b
      linarith

theorem iou_comm (a b : BoundingBox) : iou a b = iou b a := by
  unfold iou
  rw [interArea_comm b a, add_comm (boxArea b) (boxArea a)]

theorem iou_of_interArea_eq_zero (a b : BoundingBox)
    (h : interArea a b = 0) : iou a b = 0 := by
  unfold iou
  rw [h]
  split
  · rfl
  · exact zero_div _

theorem interArea_of_disjoint (a b : BoundingBox)
    (h : disjointBoxes a b) : interArea a b = 0 := by
  unfold interArea interWidth interHeight
  rcases h with h | h | h | h
  · have hx : min a.x_max b.x_max - max a.x_min b.x_min ≤ 0 := by
      have h1 : min a.x_max b.x_max ≤ a.x_max := min_le_left _ _
      have h2 : b.x_min ≤ max a.x_min b.x_min := le_max_right _ _
      linarith
    rw [max_eq_left hx, zero_mul]
  · have hx : min a.x_max b.x_max - max a.x_min b.x_min ≤ 0 := by
      have h1 : min a.x_max b.x_max ≤ b.x_max := min_le_right _ _
      have h2 : a.x_min ≤ max a.x_min b.x_min := le_max_left _ _
      linarith
    rw [max_eq_left hx, zero_mul]
  · have hy : min a.y_max b.y_max - max a.y_min b.y_min ≤ 0 := by
      have h1 : min a.y_max b.y_max ≤ a.y_max := min_le_left _ _
      have h2 : b.y_min ≤ max a.y_min b.y_min := le_max_right _ _
      linarith
    rw [max_eq_left hy, mul_zero]
  · have hy : min a.y_max b.y_max - max a.y_min b.y_min ≤ 0 := by
      have h1 : min a.y_max b.y_max ≤ b.y_max := min_le_right _ _
      have h2 : a.y_min ≤ max a.y_min b.y_min := le_max_left _ _
      linarith
    rw [max_eq_left hy, mul_zero]

theorem interArea_of_degenerate (a b : BoundingBox)
    (h : boxArea a = 0 ∨ boxArea b = 0) : interArea a b = 0 := by
  rcases h with h | h
  · exact le_antisymm (h ▸ interArea_le_left a b) (interArea_nonneg a b)
  · exact le_antisymm (h ▸ interArea_le_right a b) (interArea_nonneg a b)

theorem iou_self (a : BoundingBox) (hd : boxArea a ≠ 0) :
    iou a a = 1 := by
  have hw : interWidth a a = max 0 (a.x_max - a.x_min) := by
    unfold interWidth; rw [min_self, max_self]
  have hh : interHeight a a = max 0 (a.y_max - a.y_min) := by
    unfold interHeight; rw [min_self, max_self]
  have hi : interArea a a = boxArea a := by
    unfold interArea boxArea; rw [hw, hh]
  have hpos : 0 < boxArea a := lt_of_le_of_ne (boxArea_nonneg a) (Ne.symm hd)
  unfold iou
  rw [hi]
  have hu : boxArea a + boxArea a - boxArea a = boxArea a := by ring
  rw [hu]
  rw [if_neg (not_le.mpr hpos)]
  exact div_self hd

/-! ### Alert-history lemmas -/

theorem appendAlert_eq_drop (cap : Nat) (hist : List AlertEvent) (e : AlertEvent) :
    appendAlert cap hist e = (hist ++ [e]).drop ((hist ++ [e]).length - cap) := by
  unfold appendAlert
  split
  · rfl
  · next h =>
      have hle : (hist ++ [e]).length ≤ cap := le_of_not_lt (by
        intro hlt; exact h hlt)
      rw [Nat.sub_eq_zero_of_le hle, List.drop_zero]

theorem appendAlert_length_le (cap : Nat) (hist : List AlertEvent) (e : AlertEvent) :
    (appendAlert cap hist e).length ≤ cap ∨
      (appendAlert cap hist e).length = hist.length + 1 := by
  unfold appendAlert
  split
  · next h =>
      left
      rw [List.length_drop]
      omega
  · next h =>
      right
      simp

theorem appendAlert_length_le_of_le (cap : Nat) (hist : List AlertEvent)
    (e : AlertEvent) (h : hist.length ≤ cap) :
    (appendAlert cap hist e).length ≤ cap := by
  unfold appendAlert
  split
  · next hlt =>
      rw [List.length_drop]
      omega
  · next hlt =>
      simp only [List.length_append, List.length_cons, List.length_nil] at hlt ⊢
      omega

theorem foldl_appendAlert (cap : Nat) :
    ∀ (es : List AlertEvent) (hist : List AlertEvent), hist.length ≤ cap →
      List.foldl (appendAlert cap) hist es
        = (hist ++ es).drop ((hist ++ es).length - cap) := by
  intro es
  induction es with
  | nil =>
      intro hist h
      simp only [List.foldl_nil, List.append_nil]
      rw [Nat.sub_eq_zero_of_le h, List.drop_zero]
  | cons e es ih =>
      intro hist h
      rw [List.foldl_cons]
      rw [ih (appendAlert cap hist e) (appendAlert_length_le_of_le cap hist e h)]
      rw [appendAlert_eq_drop]
      have hd : (hist ++ [e]).length - cap ≤ (hist ++ [e]).length := Nat.sub_le _ _
      rw [← List.drop_append_of_le_length hd, List.drop_drop]
      have hassoc : hist ++ [e] ++ es = hist ++ e :: es := by simp
      rw [hassoc]
      congr 1
      simp only [List.length_drop, List.length_append, List.length_cons,
        List.length_nil]
      omega

/-! ### Single-object frame-step lemmas -/

/-- A missing disturbance record for a protected object. -/
def missingDisturbance (obj : ProtectedObject) : Disturbance :=
  ⟨obj.label, 1, true, obj.baseline_bbox, none⟩

theorem stepFrame_nomatch_ne (thr tol eps : ℚ) (deb cap : Nat)
    (dets : List Detection) (t : ℚ) (s : ProtectionSession)
    (obj : ProtectedObject)
    (harm : s.armed = true) (hobjs : s.protected_objects = [obj])
    (hmatch : bestMatch obj.baseline_bbox obj.label dets = none)
    (hne : s.missing_streak obj.label + 1 ≠ deb) :
    stepFrame thr tol deb eps cap dets t s =
      ([], none,
        { s with missing_streak :=
            fun l => if l = obj.label then s.missing_streak obj.label + 1
                     else s.missing_streak l }) := by
  by_cases hle : deb ≤ s.missing_streak obj.label + 1
  · simp [stepFrame, evaluate, classifyObject, disturbanceOf, harm, hobjs,
      hmatch, hle, hne]
  · simp [stepFrame, evaluate, classifyObject, disturbanceOf, harm, hobjs,
      hmatch, hle]

theorem stepFrame_nomatch_eq (thr tol eps : ℚ) (deb cap : Nat)
    (dets : List Detection) (t : ℚ) (s : ProtectionSession)
    (obj : ProtectedObject)
    (harm : s.armed = true) (hobjs : s.protected_objects = [obj])
    (hmatch : bestMatch obj.baseline_bbox obj.label dets = none)
    (heq : s.missing_streak obj.label + 1 = deb)
    (hlast : s.last_reported obj.label = none) :
    stepFrame thr tol deb eps cap dets t s =
      ([missingDisturbance obj],
        some ⟨t, [missingDisturbance obj]⟩,
        { s with
            missing_streak :=
              fun l => if l = obj.label then s.missing_streak obj.label + 1
                       else s.missing_streak l
            alert_history :=
              appendAlert cap s.alert_history ⟨t, [missingDisturbance obj]⟩
            last_reported :=
              fun l => if l = obj.label then some ReportedStatus.missing
                       else s.last_reported l }) := by
  have hle : deb ≤ s.missing_streak obj.label + 1 := le_of_eq heq.symm
  simp [stepFrame, evaluate, classifyObject, disturbanceOf, isNewDisturbance,
    updateReported, missingDisturbance, harm, hobjs, hmatch, hle, heq, hlast]

/-- Modelled from the spec: the producer loop evaluating a list of
consecutive `(detections, timestamp)` frames against a session, returning
each frame's disturbances and emitted alert alongside the final session. -/
def runFrames (thr tol : ℚ) (deb : Nat) (eps : ℚ) (cap : Nat)
    (frames : List (List Detection × ℚ)) (s : ProtectionSession) :
    List (List Disturbance × Option AlertEvent) × ProtectionSession :=
  match frames with
  | [] => ([], s)
  | (dets, t) :: rest =>
      (((stepFrame thr tol deb eps cap dets t s).1,
        (stepFrame thr tol deb eps cap dets t s).2.1)
        :: (runFrames thr tol deb eps cap rest
              (stepFrame thr tol deb eps cap dets t s).2.2).1,
       (runFrames thr tol deb eps cap rest
          (stepFrame thr tol deb eps cap dets t s).2.2).2)

/-! ### Claim theorems -/

/-- C3: for every pair of boxes, `iou` lies in `[0,1]` and is symmetric;
it is `0` for disjoint boxes and when either box is degenerate (zero
area); `iou a a = 1` for every valid non-degenerate box; and the function
is total — the bounds hold for all inputs, malformed boxes being clamped
by the area computations, never rejected. -/
theorem iou_contract :
    ∀ a b : BoundingBox,
      (0 ≤ iou a b ∧ iou a b ≤ 1) ∧
      iou a b = iou b a ∧
      (disjointBoxes a b → iou a b = 0) ∧
      (boxArea a = 0 ∨ boxArea b = 0 → iou a b = 0) ∧
      (validBox a → boxArea a ≠ 0 → iou a a = 1) := by
  intro a b
  refine ⟨⟨iou_nonneg a b, iou_le_one a b⟩, iou_comm a b, ?_, ?_, ?_⟩
  · intro h
    exact iou_of_interArea_eq_zero a b (interArea_of_disjoint a b h)
  · intro h
    exact iou_of_interArea_eq_zero a b (interArea_of_degenerate a b h)
  · intro _ hd
    exact iou_self a hd

/-- C3 witness: the contract applied to the concrete valid non-degenerate
box `[0,0,10,10]` and the disjoint box `[20,0,30,10]`. -/
theorem iou_contract_witness :
    iou ⟨0, 0, 10, 10⟩ ⟨20, 0, 30, 10⟩ = 0 ∧
    iou ⟨0, 0, 10, 10⟩ ⟨0, 0, 10, 10⟩ = 1 :=
  ⟨(iou_contract ⟨0, 0, 10, 10⟩ ⟨20, 0, 30, 10⟩).2.2.1
      (by unfold disjointBoxes; left; norm_num),
   (iou_contract ⟨0, 0, 10, 10⟩ ⟨20, 0, 30, 10⟩).2.2.2.2
      (by unfold validBox; norm_num)
      (by unfold boxArea; norm_num)⟩

/-- C8: the alert history is bounded — one append keeps the length within
capacity whenever it was within capacity, any sequence of emissions
starting from a within-capacity history retains exactly the most recent
entries (the fold equals the suffix of the emission sequence that fits),
and the viewer's alert list after handling an alert message never exceeds
its capacity of 10. -/
theorem alert_history_bounded :
    (∀ (cap : Nat) (hist : List AlertEvent) (e : AlertEvent),
      hist.length ≤ cap → (appendAlert cap hist e).length ≤ cap) ∧
    (∀ (cap : Nat) (hist : List AlertEvent) (es : List AlertEvent),
      hist.length ≤ cap →
        List.foldl (appendAlert cap) hist es
          = (hist ++ es).drop ((hist ++ es).length - cap)) ∧
    (∀ (α : Type) (d : α) (raw : String) (s : ClientState α),
      ((onmessage (ParsedPayload.jsonValue (some "alert") d) raw s).alerts).length
        ≤ 10) := by
  refine ⟨appendAlert_length_le_of_le, ?_, ?_⟩
  · intro cap hist es h
    exact foldl_appendAlert cap es hist h
  · intro α d raw s
    simp [onmessage]

/-- Three concrete alert events used by the C8 witness. -/
def threeAlertEvents : List AlertEvent := [⟨1, []⟩, ⟨2, []⟩, ⟨3, []⟩]

/-- C8 witness: with capacity 2, folding three emissions over an empty
history retains exactly the two most recent events. -/
theorem alert_history_bounded_witness :
    List.foldl (appendAlert 2) [] threeAlertEvents
      = ([] ++ threeAlertEvents).drop ((([] : List AlertEvent) ++ threeAlertEvents).length - 2) :=
  alert_history_bounded.2.1 2 [] threeAlertEvents (by simp)

/-- C4: `arm` succeeds exactly on non-empty detection lists — on any
non-empty list it returns success with `object_count` the number of
detections and installs a session whose protected objects are exactly the
input detections (label and bbox as baseline); on the empty list it
signals `NoObjectsDetected` and leaves the machine state unchanged, so an
`Idle` machine stays `Idle` with no session created. -/
theorem arm_contract :
    ∀ (dets : List Detection) (st : MachineState),
      (dets ≠ [] →
        (arm dets st).1 = Except.ok ⟨true, dets.length⟩ ∧
        (arm dets st).2 = MachineState.Armed (newSession dets) ∧
        (newSession dets).protected_objects
          = dets.map (fun d => ⟨d.label, d.bbox⟩)) ∧
      (dets = [] →
        (arm dets st).1 = Except.error ArmError.NoObjectsDetected ∧
        (arm dets st).2 = st) := by
  intro dets st
  constructor
  · intro h
    have hne : dets.isEmpty = false := by
      cases dets with
      | nil => exact absurd rfl h
      | cons x xs => rfl
    refine ⟨?_, ?_, rfl⟩
    · simp [arm, hne]
    · simp [arm, hne]
  · intro h
    subst h
    exact ⟨rfl, rfl⟩

/-- C4 witness: arming with one detection succeeds with count 1 and the
matching baseline; arming an `Idle` machine with no detections fails with
`NoObjectsDetected` and leaves it `Idle`. -/
theorem arm_contract_witness :
    (arm [⟨"bag", ⟨0, 0, 10, 10⟩, 1⟩] MachineState.Idle).1
        = Except.ok ⟨true, 1⟩ ∧
    (arm ([] : List Detection) MachineState.Idle).1
        = Except.error ArmError.NoObjectsDetected ∧
    (arm ([] : List Detection) MachineState.Idle).2 = MachineState.Idle :=
  ⟨((arm_contract [⟨"bag", ⟨0, 0, 10, 10⟩, 1⟩] MachineState.Idle).1
      (by simp)).1,
   ((arm_contract [] MachineState.Idle).2 rfl).1,
   ((arm_contract [] MachineState.Idle).2 rfl).2⟩

/-- C5: a successful (re-)arm installs a session whose alert history is
empty, whatever the previous state and its history were; and the viewer
mirrors this — a successful `/activate_protection` response resets the
displayed alert list to empty. -/
theorem rearm_clears_alert_history :
    (∀ (dets : List Detection) (st : MachineState) (s : ProtectionSession),
      dets ≠ [] → (arm dets st).2 = MachineState.Armed s →
        s.alert_history = []) ∧
    (∀ (r : ActivateResponse) (s : ClientState AlertEvent),
      r.success = true → (handleActivateResponse r s).alerts = []) := by
  constructor
  · intro dets st s hne harm
    have h := ((arm_contract dets st).1 hne).2.1
    rw [h] at harm
    have hs : newSession dets = s := by
      injection harm
    rw [← hs]
    rfl
  · intro r s hr
    simp [handleActivateResponse, hr]

/-- C5 witness: re-arming a machine already armed with a non-empty alert
history yields an empty history, and a successful activate response
empties a non-empty viewer alert list. -/
theorem rearm_clears_alert_history_witness :
    (newSession [⟨"bag", ⟨0, 0, 10, 10⟩, 1⟩]).alert_history = [] ∧
    (handleActivateResponse ⟨true, 1, ""⟩
        (⟨"", threeAlertEvents, ""⟩ : ClientState AlertEvent)).alerts = [] :=
  ⟨rearm_clears_alert_history.1 [⟨"bag", ⟨0, 0, 10, 10⟩, 1⟩]
      (MachineState.Armed ⟨true, [], threeAlertEvents, fun _ => 0, fun _ => none⟩)
      (newSession [⟨"bag", ⟨0, 0, 10, 10⟩, 1⟩]) (by simp)
      (((arm_contract [⟨"bag", ⟨0, 0, 10, 10⟩, 1⟩]
          (MachineState.Armed ⟨true, [], threeAlertEvents, fun _ => 0, fun _ => none⟩)).1
        (by simp)).2.1),
   rearm_clears_alert_history.2 ⟨true, 1, ""⟩ ⟨"", threeAlertEvents, ""⟩ rfl⟩

/-- C6: `disarm` always yields `Idle` (so it clears any session and is a
no-op on `Idle`), machine-level evaluation after a disarm produces no
disturbances and no alert for any detector input, and the per-frame
algorithm runs only on an armed session — an unarmed session is left
untouched with no disturbances. -/
theorem disarm_contract :
    (∀ st : MachineState, disarm st = MachineState.Idle) ∧
    disarm MachineState.Idle = MachineState.Idle ∧
    (∀ (thr tol eps now : ℚ) (deb cap : Nat) (dets : List Detection)
        (st : MachineState),
      machineEvaluate thr tol deb eps cap dets now (disarm st)
        = ([], none, MachineState.Idle)) ∧
    (∀ (thr tol eps now : ℚ) (deb cap : Nat) (dets : List Detection)
        (s : ProtectionSession), s.armed = false →
      stepFrame thr tol deb eps cap dets now s = ([], none, s)) := by
  refine ⟨fun _ => rfl, rfl, fun _ _ _ _ _ _ _ _ => rfl, ?_⟩
  intro thr tol eps now deb cap dets s hs
  simp [stepFrame, hs]

/-- C6 witness: disarming an armed machine with a protected object, then
evaluating a frame containing a detection, yields no disturbances, and a
frame step on an unarmed session is inert. -/
theorem disarm_contract_witness :
    machineEvaluate (1/10) 0 3 (1/100) 10 [⟨"bag", ⟨5, 0, 15, 10⟩, 1⟩] 0
        (disarm (MachineState.Armed (newSession [⟨"bag", ⟨0, 0, 10, 10⟩, 1⟩])))
      = ([], none, MachineState.Idle) ∧
    stepFrame (1/10) 0 3 (1/100) 10 [⟨"bag", ⟨5, 0, 15, 10⟩, 1⟩] 0
        ⟨false, [⟨"bag", ⟨0, 0, 10, 10⟩⟩], [], fun _ => 0, fun _ => none⟩
      = ([], none, ⟨false, [⟨"bag", ⟨0, 0, 10, 10⟩⟩], [], fun _ => 0, fun _ => none⟩) :=
  ⟨disarm_contract.2.2.1 (1/10) 0 (1/100) 0 3 10 [⟨"bag", ⟨5, 0, 15, 10⟩, 1⟩]
      (MachineState.Armed (newSession [⟨"bag", ⟨0, 0, 10, 10⟩, 1⟩])),
   disarm_contract.2.2.2 (1/10) 0 (1/100) 0 3 10 [⟨"bag", ⟨5, 0, 15, 10⟩, 1⟩]
      ⟨false, [⟨"bag", ⟨0, 0, 10, 10⟩⟩], [], fun _ => 0, fun _ => none⟩ rfl⟩

/-- C7 counterexample: the claim that every stream message carries a
discriminator field fails at a concrete frame message — a frame is a raw
base64 payload carrying no field at all. -/
theorem stream_discriminator_counterexample :
    messageDiscriminator (StreamMessage.frame "aGVsbG8=") = none := rfl

/-- C7 (amended): only alert messages carry the discriminator field
`type = "alert"`; frame messages are untagged raw payloads, and the
implemented consumer selects by whether the `try` block throws — a
payload that fails to parse is rendered as a frame, a payload parsing to
JSON `null` also falls into the `catch` (the `jsonMsg.type` access
throws) and is rendered as a frame, a parsed non-null payload tagged
`alert` is prepended to the alert list, and a parsed non-null payload
with any other tag is dropped. -/
theorem stream_discriminator_amended :
    (∀ e : AlertEvent, messageDiscriminator (StreamMessage.alert e) = some "alert") ∧
    (∀ p : String, messageDiscriminator (StreamMessage.frame p) = none) ∧
    (∀ (α : Type) (raw : String) (s : ClientState α),
      onmessage (ParsedPayload.notJson : ParsedPayload α) raw s
        = { s with imageUrl := "data:image/jpeg;base64," ++ raw }) ∧
    (∀ (α : Type) (raw : String) (s : ClientState α),
      onmessage (ParsedPayload.jsonNull : ParsedPayload α) raw s
        = { s with imageUrl := "data:image/jpeg;base64," ++ raw }) ∧
    (∀ (α : Type) (d : α) (raw : String) (s : ClientState α),
      onmessage (ParsedPayload.jsonValue (some "alert") d) raw s
        = { s with alerts := (d :: s.alerts).take 10 }) ∧
    (∀ (α : Type) (t : Option String) (d : α) (raw : String) (s : ClientState α),
      t ≠ some "alert" →
        onmessage (ParsedPayload.jsonValue t d) raw s = s) := by
  refine ⟨fun _ => rfl, fun _ => rfl, fun _ _ _ => rfl, fun _ _ _ => rfl, ?_, ?_⟩
  · intro α d raw s
    simp [onmessage]
  · intro α t d raw s ht
    simp [onmessage, ht]

/-- C7 amended witness: the amended statement applied at a parsed non-null
payload tagged `status`, which the handler drops. -/
theorem stream_discriminator_amended_witness :
    onmessage (ParsedPayload.jsonValue (some "status") (0 : Nat)) "x"
        (⟨"", [], ""⟩ : ClientState Nat)
      = (⟨"", [], ""⟩ : ClientState Nat) :=
  stream_discriminator_amended.2.2.2.2.2 Nat (some "status") 0 "x" ⟨"", [], ""⟩
    (by simp)

/-- C10 counterexample: the payload `"null"` parses as JSON — so by the
claim it should be silently dropped (its `type` is not `"alert"`) and
never rendered — yet the handler renders it as a frame: `JSON.parse`
succeeds with `null`, the `jsonMsg.type` access throws a TypeError inside
the `try`, and the `catch` displays the payload, changing the image. -/
theorem onmessage_partition_counterexample :
    (onmessage (ParsedPayload.jsonNull : ParsedPayload Nat) "null"
        (⟨"old", [], ""⟩ : ClientState Nat)).imageUrl
      = "data:image/jpeg;base64,null" ∧
    (onmessage (ParsedPayload.jsonNull : ParsedPayload Nat) "null"
        (⟨"old", [], ""⟩ : ClientState Nat)).imageUrl
      ≠ (⟨"old", [], ""⟩ : ClientState Nat).imageUrl := by
  constructor
  · rfl
  · simp [onmessage]

/-- C10 (amended): the viewer's `ws.onmessage` handler partitions every
incoming message into exactly one of four outcomes — a payload parsing
to a non-null JSON value tagged `alert` is prepended to the alert list
(keeping 10), a non-null JSON value with any other tag is silently
dropped, a payload parsing to JSON `null` throws on the `jsonMsg.type`
access and the `catch` renders it as a base64 JPEG frame, and an
unparseable payload is likewise rendered as a frame; consequently a
payload parsing to a non-null JSON value never changes the displayed
image, and the handler (a total function, its `catch` absorbing both
error paths) never throws. -/
theorem onmessage_total_partition :
    ∀ (α : Type) (parsed : ParsedPayload α) (raw : String) (s : ClientState α),
      ((∃ d, parsed = ParsedPayload.jsonValue (some "alert") d ∧
          onmessage parsed raw s = { s with alerts := (d :: s.alerts).take 10 }) ∨
       (∃ t d, parsed = ParsedPayload.jsonValue t d ∧ t ≠ some "alert" ∧
          onmessage parsed raw s = s) ∨
       (parsed = ParsedPayload.jsonNull ∧
          onmessage parsed raw s
            = { s with imageUrl := "data:image/jpeg;base64," ++ raw }) ∨
       (parsed = ParsedPayload.notJson ∧
          onmessage parsed raw s
            = { s with imageUrl := "data:image/jpeg;base64," ++ raw })) ∧
      (∀ (t : Option String) (d : α), parsed = ParsedPayload.jsonValue t d →
        (onmessage parsed raw s).imageUrl = s.imageUrl) := by
  intro α parsed raw s
  constructor
  · match parsed with
    | .notJson => exact Or.inr (Or.inr (Or.inr ⟨rfl, rfl⟩))
    | .jsonNull => exact Or.inr (Or.inr (Or.inl ⟨rfl, rfl⟩))
    | .jsonValue t d =>
        by_cases ht : t = some "alert"
        · subst ht
          exact Or.inl ⟨d, rfl, by simp [onmessage]⟩
        · exact Or.inr (Or.inl ⟨t, d, rfl, ht, by simp [onmessage, ht]⟩)
  · intro t d hp
    subst hp
    by_cases ht : t = some "alert"
    · simp [onmessage, ht]
    · simp [onmessage, ht]

/-- C10 amended witness: a payload parsing to a non-null JSON value (here
tagged `alert`) never changes the displayed image. -/
theorem onmessage_total_partition_witness :
    (onmessage (ParsedPayload.jsonValue (some "alert") (7 : Nat)) "payload"
        (⟨"old", [], ""⟩ : ClientState Nat)).imageUrl
      = (⟨"old", [], ""⟩ : ClientState Nat).imageUrl :=
  (onmessage_total_partition Nat (ParsedPayload.jsonValue (some "alert") 7)
      "payload" ⟨"old", [], ""⟩).2 (some "alert") 7 rfl

/-- C1: whenever the best same-label match of a protected object has IoU at
least the missing tolerance, the engine computes
`movement_score = 1 - iou(baseline, matched)` and classifies `Moved` with
that score exactly when the score exceeds the movement threshold,
otherwise `Intact` (resetting the missing streak); concretely, with
threshold `1/10`, baseline `[0,0,10,10]` matched at `[5,0,15,10]`
(IoU `1/3`) yields exactly one disturbance
`{item := "bag", missing := false, movement_score := 2/3}` and one alert
containing it. -/
theorem movement_classification_contract :
    (∀ (thr tol : ℚ) (deb streak : Nat) (dets : List Detection)
        (obj : ProtectedObject) (d : Detection),
      bestMatch obj.baseline_bbox obj.label dets = some d →
      iou obj.baseline_bbox d.bbox ≥ tol →
      classifyObject thr tol deb streak dets obj
        = (if thr < 1 - iou obj.baseline_bbox d.bbox
           then ObjectStatus.Moved (1 - iou obj.baseline_bbox d.bbox)
           else ObjectStatus.Intact, 0, some d)) ∧
    (stepFrame (1/10) 0 3 (1/100) 10 [⟨"bag", ⟨5, 0, 15, 10⟩, (9:ℚ)/10⟩] 0
        (newSession [⟨"bag", ⟨0, 0, 10, 10⟩, (9:ℚ)/10⟩])).1
      = [⟨"bag", 2/3, false, ⟨0, 0, 10, 10⟩, some ⟨5, 0, 15, 10⟩⟩] ∧
    (stepFrame (1/10) 0 3 (1/100) 10 [⟨"bag", ⟨5, 0, 15, 10⟩, (9:ℚ)/10⟩] 0
        (newSession [⟨"bag", ⟨0, 0, 10, 10⟩, (9:ℚ)/10⟩])).2.1
      = some ⟨0, [⟨"bag", 2/3, false, ⟨0, 0, 10, 10⟩, some ⟨5, 0, 15, 10⟩⟩]⟩ := by
  refine ⟨?_, ?_, ?_⟩
  · intro thr tol deb streak dets obj d hmatch htol
    simp only [classifyObject, hmatch]
    rw [if_pos htol]
  · norm_num [stepFrame, evaluate, classifyObject, bestMatch, disturbanceOf,
      isNewDisturbance, newSession, iou, interArea, interWidth, interHeight,
      boxArea, appendAlert, updateReported]
  · norm_num [stepFrame, evaluate, classifyObject, bestMatch, disturbanceOf,
      isNewDisturbance, newSession, iou, interArea, interWidth, interHeight,
      boxArea, appendAlert, updateReported]

/-- The protected object used by concrete witnesses. -/
def bagObject : ProtectedObject := ⟨"bag", ⟨0, 0, 10, 10⟩⟩

/-- The moved detection of the C1 example. -/
def movedBagDetection : Detection := ⟨"bag", ⟨5, 0, 15, 10⟩, (9:ℚ)/10⟩

/-- C1 witness: the classification rule applied at the concrete example —
the matched IoU is `1/3`, so the object is classified `Moved (2/3)` with
its streak reset. -/
theorem movement_classification_contract_witness :
    classifyObject (1/10) 0 3 0 [movedBagDetection] bagObject
      = (if (1:ℚ)/10 < 1 - iou bagObject.baseline_bbox movedBagDetection.bbox
         then ObjectStatus.Moved (1 - iou bagObject.baseline_bbox movedBagDetection.bbox)
         else ObjectStatus.Intact, 0, some movedBagDetection) :=
  movement_classification_contract.1 (1/10) 0 3 0 [movedBagDetection]
    bagObject movedBagDetection
    (by simp [bestMatch, movedBagDetection, bagObject])
    (by norm_num [iou, interArea, interWidth, interHeight, boxArea,
      bagObject, movedBagDetection])

/-- C2: for any protected object monitored with `missing_debounce = 3`,
four consecutive frames in which no detection matches its label produce
no disturbance and no alert on frames 1 and 2 (the object is still
classified `Intact` below the debounce), exactly one `Missing` alert
carrying exactly one disturbance on frame 3 (when the consecutive-miss
counter reaches the debounce), and no further disturbance or alert on
frame 4 while the object stays missing. -/
theorem missing_debounce_contract :
    ∀ (thr tol eps : ℚ) (cap : Nat) (obj : ProtectedObject)
      (h0 : List AlertEvent) (d1 d2 d3 d4 : List Detection) (t1 t2 t3 t4 : ℚ),
      bestMatch obj.baseline_bbox obj.label d1 = none →
      bestMatch obj.baseline_bbox obj.label d2 = none →
      bestMatch obj.baseline_bbox obj.label d3 = none →
      bestMatch obj.baseline_bbox obj.label d4 = none →
      (runFrames thr tol 3 eps cap [(d1, t1), (d2, t2), (d3, t3), (d4, t4)]
          ⟨true, [obj], h0, fun _ => 0, fun _ => none⟩).1
        = [([], none), ([], none),
           ([missingDisturbance obj], some ⟨t3, [missingDisturbance obj]⟩),
           ([], none)] ∧
      (classifyObject thr tol 3 0 d1 obj).1 = ObjectStatus.Intact ∧
      (classifyObject thr tol 3 1 d2 obj).1 = ObjectStatus.Intact := by
  intro thr tol eps cap obj h0 d1 d2 d3 d4 t1 t2 t3 t4 h1 h2 h3 h4
  refine ⟨?_, ?_, ?_⟩
  · simp [runFrames, stepFrame, evaluate, classifyObject, disturbanceOf,
      isNewDisturbance, updateReported, missingDisturbance, h1, h2, h3, h4]
  · simp [classifyObject, h1]
  · simp [classifyObject, h2]

/-- C2 witness: the debounce pattern at the concrete object `"bag"` with
four empty frames — no alert on frames 1 and 2, exactly one `Missing`
alert on frame 3, none on frame 4. -/
theorem missing_debounce_contract_witness :
    (runFrames (1/10) 0 3 (1/100) 10 [([], 1), ([], 2), ([], 3), ([], 4)]
        ⟨true, [bagObject], [], fun _ => 0, fun _ => none⟩).1
      = [([], none), ([], none),
         ([missingDisturbance bagObject],
          some ⟨3, [missingDisturbance bagObject]⟩),
         ([], none)] ∧
    (classifyObject (1/10) 0 3 0 [] bagObject).1 = ObjectStatus.Intact ∧
    (classifyObject (1/10) 0 3 1 [] bagObject).1 = ObjectStatus.Intact :=
  missing_debounce_contract (1/10) 0 (1/100) 10 bagObject [] [] [] [] []
    1 2 3 4 rfl rfl rfl rfl

end BagAlert
